import Mathlib

/-!
Verification of the `pacing` session-orchestration core.

This file gives a shallow embedding, in Lean 4, of the parts of the
repository the claims concern:

* `pacing/impl/agents/uncertainty_auditor.py` — the `UncertaintyAuditor`
  sidecar agent (confidence flagging, review queue);
* `pacing/platform.py` — `BasicSessionStream` (session lifecycle, the
  audio→transcription→fan-out pipeline, retention policy).

Modelling conventions:
* Python floats are embedded as exact rationals (`ℚ`); all comparisons
  exercised by the claims are away from binary-representation boundaries.
* `datetime.now()` timestamps are irrelevant to every claim and are
  embedded as the constant `0`.
* `uuid.uuid4()` is an external source of fresh identifiers; it is
  embedded as a counter (`uuid_seed`) threaded through the auditor state.
* Python `async` methods are embedded as pure state-transformers: the
  interpreter runs a single task, and `await e` runs `e` to completion
  before continuing, so sequential composition is the faithful model.
* A Python method that may `raise` returns `Except` (the error carries
  the state of the object at the point of the raise).
-/

/-! ## String helpers (Python `in`, `str.strip`, `str.lower`, format specs)

These are written as structural recursions over the character list so that
every concrete run of the model can be checked by kernel reduction. -/

/-- Does the first list occur as a prefix of the second? -/
def matchesAt : List Char → List Char → Bool
  | [], _ => true
  | _ :: _, [] => false
  | p :: ps, c :: cs => p == c && matchesAt ps cs

/-- Does `pat` occur as a contiguous sublist of `s`? -/
def substrAux (pat : List Char) : List Char → Bool
  | [] => pat.isEmpty
  | c :: cs => matchesAt pat (c :: cs) || substrAux pat cs

/-- Python substring containment `pat in s` (for strings). -/
def strContains (s pat : String) : Bool :=
  substrAux pat.data s.data

/-- Python `str.lower()` (the texts exercised by the claims are ASCII). -/
def pyLower (s : String) : String :=
  String.mk (s.data.map Char.toLower)

/-- Python `str.strip()` with no argument: remove leading and trailing
whitespace. -/
def pyStrip (s : String) : String :=
  String.mk (((s.data.dropWhile Char.isWhitespace).reverse.dropWhile
    Char.isWhitespace).reverse)

/-- Python `", ".join(terms)`. -/
def joinSep (sep : String) : List String → String
  | [] => ""
  | [x] => x
  | x :: xs => x ++ sep ++ joinSep sep xs

/-- Render a natural number below 100 with two digits (helper for the
fractional part of a fixed-point rendering). -/
def twoDigits (n : ℤ) : String :=
  if n < 10 then "0" ++ toString n else toString n

/-- Python format spec `:.2%`: multiply by 100 and render in fixed format
with two decimal places followed by a percent sign.  The integer
`(2·num·10000 + den).fdiv (2·den)` is exactly `⌊q·10000 + 1/2⌋`, the value
rounded half-up to hundredths of a percent; every value exercised by the
claims is exactly representable, so no rounding boundary is crossed. -/
def formatPercent2 (q : ℚ) : String :=
  let n : ℤ := (2 * q.num * 10000 + (q.den : ℤ)).fdiv (2 * (q.den : ℤ))
  toString (n / 100) ++ "." ++ twoDigits (n % 100) ++ "%"

/-! ## Data models (`pacing/models/data_models.py`) -/

/-- `TranscriptionResult`: result of transcribing one audio chunk. -/
structure TranscriptionResult where
  text : String
  timestamp : ℕ := 0
  confidence_score : ℚ
  speaker_id : Option String := none
  /-- `is_partial` in the source. -/
  partialFlag : Bool := false
deriving DecidableEq, Repr

/-- `ReviewQueueItem`: an item flagged for human review. -/
structure ReviewQueueItem where
  item_id : String
  transcription : TranscriptionResult
  flagged_at : ℕ := 0
  reason : String
  priority : ℕ := 1
  reviewed : Bool := false
  reviewer_notes : Option String := none
deriving DecidableEq, Repr

/-- `SessionMetadata`: metadata for a clinical session. -/
structure SessionMetadata where
  session_id : String
  patient_id : String
  clinician_id : String
  start_time : ℕ
  end_time : Option ℕ := none
  session_type : String := "counseling"
deriving DecidableEq, Repr

/-! ## `UncertaintyAuditor` (`pacing/impl/agents/uncertainty_auditor.py`) -/

/-- The default medical-term set of the auditor (a Python `set` literal;
iteration order of a `set` is unspecified, so it is embedded as a list in
source-literal order — no claim depends on the order). -/
def defaultMedicalTerms : List String :=
  ["buprenorphine", "naloxone", "methadone", "suboxone",
   "opioid", "benzodiazepine", "fentanyl", "morphine",
   "mg", "milligram", "dose", "dosage", "prescription"]

/-- State of an `UncertaintyAuditor` instance. -/
structure UncertaintyAuditor where
  confidence_threshold : ℚ
  max_queue_size : ℕ
  auto_flag_medical_terms : Bool
  review_queue : List ReviewQueueItem
  total_transcriptions_processed : ℕ
  total_flagged : ℕ
  current_session_id : Option String
  medical_terms : List String
  /-- Embedding device: `uuid.uuid4()` modelled as a fresh-identifier
  counter. -/
  uuid_seed : ℕ
deriving DecidableEq, Repr

/-- `UncertaintyAuditor.__init__`: validates the threshold (ConfigFault on
violation) and initialises the state. -/
def mkUncertaintyAuditor (confidence_threshold : ℚ) (max_queue_size : ℕ := 100)
    (auto_flag_medical_terms : Bool := true) : Except String UncertaintyAuditor :=
  if 0 ≤ confidence_threshold ∧ confidence_threshold ≤ 1 then
    .ok
      { confidence_threshold := confidence_threshold
        max_queue_size := max_queue_size
        auto_flag_medical_terms := auto_flag_medical_terms
        review_queue := []
        total_transcriptions_processed := 0
        total_flagged := 0
        current_session_id := none
        medical_terms := defaultMedicalTerms
        uuid_seed := 0 }
  else
    .error "confidence_threshold must be between 0.0 and 1.0"

/-- One step of `list.sort(key=lambda x: x.priority, reverse=True)`:
insert `x` in front of the first element whose priority is ≤ its own
(so an element inserted later goes after earlier equal-priority ones). -/
def ordInsertDesc (x : ReviewQueueItem) : List ReviewQueueItem → List ReviewQueueItem
  | [] => [x]
  | y :: l => if y.priority ≤ x.priority then x :: y :: l else y :: ordInsertDesc x l

/-- Python `list.sort(key=lambda x: x.priority, reverse=True)`: a stable
sort, descending on priority.  Python uses Timsort; any stable sort agrees
extensionally with this insertion sort, and the two characterising facts
(sortedness, per-priority-class stability) are proved below. -/
def sortByPriorityDesc : List ReviewQueueItem → List ReviewQueueItem
  | [] => []
  | x :: l => ordInsertDesc x (sortByPriorityDesc l)

/-- `UncertaintyAuditor._add_to_review_queue`: build the item, append it,
bump the flagged counter, and re-sort the queue by priority (highest
first).  The size warning and log lines are `print` side effects with no
state change and are omitted. -/
def addToReviewQueue (a : UncertaintyAuditor) (transcription : TranscriptionResult)
    (reason : String) (priority : ℕ) : UncertaintyAuditor :=
  let item : ReviewQueueItem :=
    { item_id := toString a.uuid_seed
      transcription := transcription
      reason := reason
      priority := priority }
  { a with
    review_queue := sortByPriorityDesc (a.review_queue ++ [item])
    total_flagged := a.total_flagged + 1
    uuid_seed := a.uuid_seed + 1 }

/-- The flagging-rule block of `UncertaintyAuditor.on_transcription_update`
(the mutable triple `should_flag, reason, priority` of lines 92–115 as a
pure value).  First criterion: low confidence, with priority tiers; second
criterion: medical terms, only when the first did not fire. -/
def evalFlagRules (a : UncertaintyAuditor) (t : TranscriptionResult) :
    Bool × String × ℕ :=
  let st : Bool × String × ℕ := (false, "", 1)
  let st :=
    if t.confidence_score < a.confidence_threshold then
      (true, "Low confidence score: " ++ formatPercent2 t.confidence_score,
        if t.confidence_score < mkRat 1 2 then 5
        else if t.confidence_score < mkRat 3 5 then 3
        else 2)
    else st
  let st :=
    if a.auto_flag_medical_terms && !st.1 then
      let found := a.medical_terms.filter (fun term => strContains (pyLower t.text) term)
      if found.isEmpty then st
      else (true, "Contains medical terms: " ++ joinSep ", " found, 4)
    else st
  st

/-- `UncertaintyAuditor.on_transcription_update`: count the event, skip
blank text, evaluate the flagging rules, and enqueue when flagged.
(The `context` argument of the source is unused by the auditor.) -/
def auditorUpdate (a : UncertaintyAuditor) (t : TranscriptionResult) : UncertaintyAuditor :=
  let a1 := { a with
    total_transcriptions_processed := a.total_transcriptions_processed + 1 }
  if t.text = "" ∨ pyStrip t.text = "" then a1
  else
    let st := evalFlagRules a1 t
    if st.1 then addToReviewQueue a1 t st.2.1 st.2.2 else a1

/-- Fold `on_transcription_update` over a sequence of events. -/
def auditorRun (a : UncertaintyAuditor) (ts : List TranscriptionResult) : UncertaintyAuditor :=
  ts.foldl auditorUpdate a

/-- The review queue sorted by priority, descending. -/
def QueueSortedDesc (l : List ReviewQueueItem) : Prop :=
  l.Pairwise (fun x y => y.priority ≤ x.priority)

/-! ## Session orchestrator (`pacing/platform.py`) -/

/-- `OperatingMode`: DEV persists raw data, PROD keeps it ephemeral. -/
inductive OperatingMode where
  | DEV_MODE
  | PROD_MODE
deriving DecidableEq, Repr

/-- The context dict built by `_broadcast_transcription` from the current
session. -/
structure AgentContext where
  session_id : String
  patient_id : String
  clinician_id : String
deriving DecidableEq, Repr

/-- `ISidecarAgent`, the duck-typed agent interface, as a record of
handlers over an agent-state type `A`.  `on_transcription_update` may
raise (an `AgentFault`, carried as a message); the orchestrator treats the
other handlers as total — no claim exercises a fault in them. -/
structure AgentImpl (A : Type) where
  on_transcription_update : A → TranscriptionResult → Option AgentContext → Except String A
  on_session_start : A → String → SessionMetadata → A
  on_session_end : A → String → A
  get_agent_name : A → String

/-- `IAudioProvider`, restricted to what `BasicSessionStream` consumes:
a sample rate, the (finite) sequence of chunks its async generator yields,
and the streaming flag toggled by `start_stream` / `stop_stream`.
`C` is the audio-chunk type. -/
structure AudioProvider (C : Type) where
  sample_rate : ℕ
  chunks : List C
  streaming : Bool := false

/-- `ITranscriber.transcribe_chunk`: one chunk plus the sample rate to a
`TranscriptionResult`; may raise a transcription fault (message). -/
def Transcriber (C : Type) := C → ℕ → Except String TranscriptionResult

/-- State of a `BasicSessionStream` instance. -/
structure SessionStream (A C : Type) where
  operating_mode : OperatingMode
  agents : List A
  isActiveFlag : Bool
  current_session : Option SessionMetadata
  audio_provider : Option (AudioProvider C)
  transcriber : Option (Transcriber C)
  transcription_buffer : List TranscriptionResult

/-- Faults that can escape a `BasicSessionStream` coroutine:
the `RuntimeError` raised by `start_session` while a session is active,
and an uncaught fault from `transcribe_chunk` inside the pipeline loop. -/
inductive StreamError where
  | sessionAlreadyActive
  | transcriptionFault (msg : String)
deriving DecidableEq, Repr

/-- Result of a stream coroutine: either the new stream state, or a raised
fault together with the state of the stream at the point of the raise. -/
def SResult (A C : Type) := Except (StreamError × SessionStream A C) (SessionStream A C)

/-- `BasicSessionStream.__init__`. -/
def initStream {A C : Type} (operating_mode : OperatingMode) (agents : List A := []) :
    SessionStream A C :=
  { operating_mode := operating_mode
    agents := agents
    isActiveFlag := false
    current_session := none
    audio_provider := none
    transcriber := none
    transcription_buffer := [] }

/-- The context argument `_broadcast_transcription` passes to agents. -/
def contextOf {A C : Type} (s : SessionStream A C) : Option AgentContext :=
  s.current_session.map (fun m =>
    { session_id := m.session_id
      patient_id := m.patient_id
      clinician_id := m.clinician_id })

/-- The effect of `asyncio.gather(*tasks, return_exceptions=True)` on one
agent task: the handler runs to completion or to its fault; a fault is
collected as a value (the source discards the gathered results), so the
agent keeps its state and nothing is raised. -/
def applyHandler {A : Type} (impl : AgentImpl A) (t : TranscriptionResult)
    (ctx : Option AgentContext) (ag : A) : A :=
  match impl.on_transcription_update ag t ctx with
  | .ok ag2 => ag2
  | .error _ => ag

/-- `BasicSessionStream._broadcast_transcription`: build the context and
deliver the event to every registered agent as mutually isolated tasks,
joined before returning; no fault propagates. -/
def broadcastTranscription {A C : Type} (s : SessionStream A C) (impl : AgentImpl A)
    (t : TranscriptionResult) : SessionStream A C :=
  { s with agents := s.agents.map (applyHandler impl t (contextOf s)) }

/-- The `async for` loop body of `_process_audio_stream` over the chunk
sequence: check the active flag, transcribe (an uncaught fault propagates,
carrying the current state), buffer the event in DEV mode, broadcast, and
continue with the next chunk. -/
def processChunks {A C : Type} (impl : AgentImpl A) (transcribe : Transcriber C)
    (sample_rate : ℕ) : List C → SessionStream A C → SResult A C
  | [], s => .ok s
  | c :: cs, s =>
    if s.isActiveFlag = false then .ok s
    else
      match transcribe c sample_rate with
      | .error msg => .error (.transcriptionFault msg, s)
      | .ok t =>
        let s1 :=
          if s.operating_mode = OperatingMode.DEV_MODE then
            { s with transcription_buffer := s.transcription_buffer ++ [t] }
          else s
        let s2 := broadcastTranscription s1 impl t
        processChunks impl transcribe sample_rate cs s2

/-- `BasicSessionStream._process_audio_stream`: return early when either
collaborator is missing, otherwise run the loop over the chunks of the
provider. -/
def processAudioStream {A C : Type} (s : SessionStream A C) (impl : AgentImpl A) : SResult A C :=
  match s.audio_provider, s.transcriber with
  | some provider, some transcribe =>
      processChunks impl transcribe provider.sample_rate provider.chunks s
  | _, _ => .ok s

/-- `BasicSessionStream.start_session`: raise the session-state fault when
already active; otherwise install the session, switch to active, reset the
buffer, notify every agent, start the audio stream, and run the pipeline
loop to completion (the source awaits `_process_audio_stream()` inline). -/
def startSession {A C : Type} (s : SessionStream A C) (impl : AgentImpl A)
    (session_metadata : SessionMetadata) (audio_provider : AudioProvider C)
    (transcriber : Transcriber C) : SResult A C :=
  if s.isActiveFlag then .error (.sessionAlreadyActive, s)
  else
    let s1 := { s with
      current_session := some session_metadata
      audio_provider := some audio_provider
      transcriber := some transcriber
      isActiveFlag := true
      transcription_buffer := [] }
    let s2 := { s1 with
      agents := s1.agents.map (fun ag =>
        impl.on_session_start ag session_metadata.session_id session_metadata) }
    let s3 := { s2 with
      audio_provider := some { audio_provider with streaming := true } }
    processAudioStream s3 impl

/-- `BasicSessionStream.stop_session`: no-op when idle; otherwise clear the
active flag, stop the audio stream, notify every agent of the session end,
erase the buffer in PROD mode, and drop the session references. -/
def stopSession {A C : Type} (s : SessionStream A C) (impl : AgentImpl A) : SessionStream A C :=
  if s.isActiveFlag = false then s
  else
    let s1 := { s with isActiveFlag := false }
    let s2 :=
      match s1.audio_provider with
      | some p => { s1 with audio_provider := some { p with streaming := false } }
      | none => s1
    let s3 :=
      match s2.current_session with
      | some meta =>
          { s2 with agents := s2.agents.map (fun ag => impl.on_session_end ag meta.session_id) }
      | none => s2
    let s4 :=
      if s3.operating_mode = OperatingMode.PROD_MODE then
        { s3 with transcription_buffer := [] }
      else s3
    { s4 with
      current_session := none
      audio_provider := none
      transcriber := none }

/-- Does a stream-coroutine result consist of the raised session-state
fault? -/
def isStateFault {A C : Type} : SResult A C → Bool
  | .error (.sessionAlreadyActive, _) => true
  | _ => false

/-- A transcriber that never faults, computing the event from the chunk and
the sample rate. -/
def okTr {C : Type} (f : C → ℕ → TranscriptionResult) : Transcriber C :=
  fun c sr => .ok (f c sr)

/-- Deliver one event to a list of agents (the pure content of one
fan-out). -/
def deliver {A : Type} (impl : AgentImpl A) (ctx : Option AgentContext)
    (agents : List A) (t : TranscriptionResult) : List A :=
  agents.map (applyHandler impl t ctx)

/-- Deliver a sequence of events, in order, to a list of agents. -/
def deliverAll {A : Type} (impl : AgentImpl A) (ctx : Option AgentContext)
    (agents : List A) (ts : List TranscriptionResult) : List A :=
  ts.foldl (deliver impl ctx) agents

/-! ### Concrete agents for the fan-out scenarios -/

/-- Test agents: a recorder logs every event it receives; a faulty agent
raises on every event. -/
inductive TestAgent where
  | recorder (name : String) (log : List TranscriptionResult)
  | faulty (name : String)
deriving DecidableEq, Repr

/-- Handlers of the test agents. -/
def testImpl : AgentImpl TestAgent where
  on_transcription_update ag t _ :=
    match ag with
    | .recorder n log => .ok (.recorder n (log ++ [t]))
    | .faulty _ => .error "agent handler fault"
  on_session_start ag _ _ := ag
  on_session_end ag _ := ag
  get_agent_name ag :=
    match ag with
    | .recorder n _ => n
    | .faulty n => n


/-! ## Concrete fixtures used by the scenario theorems -/

/-- A fresh auditor with threshold 0.70 and the default configuration,
exactly the state built by `UncertaintyAuditor(confidence_threshold=0.70)`. -/
def auditor070 : UncertaintyAuditor :=
  { confidence_threshold := mkRat 7 10
    max_queue_size := 100
    auto_flag_medical_terms := true
    review_queue := []
    total_transcriptions_processed := 0
    total_flagged := 0
    current_session_id := none
    medical_terms := defaultMedicalTerms
    uuid_seed := 0 }

/-- Scenario 1 event: the text of Scenario 1 (with its apostrophe written as a unicode escape), confidence 0.45. -/
def tOkay : TranscriptionResult :=
  { text := "I\u0027ve been okay", confidence_score := mkRat 9 20 }

/-- A medical-term event at confidence exactly 0.70 (the threshold of
`auditor070`). -/
def tMed : TranscriptionResult :=
  { text := "I take buprenorphine daily", confidence_score := mkRat 7 10 }

/-- Scenario 3 event: empty text with a very low confidence. -/
def tBlank : TranscriptionResult :=
  { text := "", confidence_score := mkRat 1 10 }

/-- A session-metadata fixture. -/
def meta0 : SessionMetadata :=
  { session_id := "s1", patient_id := "p1", clinician_id := "c1", start_time := 0 }

/-- A deterministic event for chunk `c` (integral confidence so that
every comparison reduces). -/
def ev (c : ℕ) (_sr : ℕ) : TranscriptionResult :=
  { text := "chunk", confidence_score := 1, timestamp := c }

/-- A two-chunk audio provider. -/
def provider2 : AudioProvider ℕ :=
  { sample_rate := 16000, chunks := [1, 2] }

/-- A three-chunk audio provider. -/
def provider3 : AudioProvider ℕ :=
  { sample_rate := 16000, chunks := [1, 2, 3] }

/-- A transcriber that faults on chunk 2 and succeeds elsewhere. -/
def trFaultOn2 : Transcriber ℕ :=
  fun c sr => if c = 2 then .error "transcription failed" else .ok (ev c sr)

/-- A stream that is mid-session: Active with a current session, a
provider, and a transcriber installed. -/
def sActive : SessionStream TestAgent ℕ :=
  { operating_mode := OperatingMode.PROD_MODE
    agents := [TestAgent.recorder "agent_a" []]
    isActiveFlag := true
    current_session := some meta0
    audio_provider := some { provider2 with streaming := true }
    transcriber := some (okTr ev)
    transcription_buffer := [] }

/-- A stream mid-session in DEV mode whose installed transcriber faults on
chunk 2 (the state of `sActive` just after the pipeline loop has been
entered, with `provider3` and `trFaultOn2` installed). -/
def sMid : SessionStream TestAgent ℕ :=
  { operating_mode := OperatingMode.DEV_MODE
    agents := [TestAgent.recorder "agent_a" []]
    isActiveFlag := true
    current_session := some meta0
    audio_provider := some { provider3 with streaming := true }
    transcriber := some trFaultOn2
    transcription_buffer := [] }

/-- Project the success state of a stream coroutine onto its
decidable-equality observables (buffer, agents, active flag). -/
def probeOk {A : Type} : SResult A ℕ → Option (List TranscriptionResult × List A × Bool)
  | .ok s => some (s.transcription_buffer, s.agents, s.isActiveFlag)
  | .error _ => none

/-- Project the fault outcome of a stream coroutine: the raised error and
the buffer and agents at the point of the raise. -/
def probeErr {A : Type} : SResult A ℕ → Option (StreamError × List TranscriptionResult × List A)
  | .ok _ => none
  | .error (e, s) => some (e, s.transcription_buffer, s.agents)

/-! # Theorems -/

/-! ### Sorting lemmas: `sortByPriorityDesc` is a stable descending sort -/

theorem ordInsertDesc_cons (x y : ReviewQueueItem) (l : List ReviewQueueItem) :
    ordInsertDesc x (y :: l) =
      if y.priority ≤ x.priority then x :: y :: l else y :: ordInsertDesc x l := rfl

theorem queueSortedDesc_cons {y : ReviewQueueItem} {l : List ReviewQueueItem} :
    QueueSortedDesc (y :: l) ↔ (∀ z ∈ l, z.priority ≤ y.priority) ∧ QueueSortedDesc l :=
  List.pairwise_cons

theorem mem_ordInsertDesc {x y : ReviewQueueItem} {l : List ReviewQueueItem} :
    y ∈ ordInsertDesc x l ↔ y = x ∨ y ∈ l := by
  induction l with
  | nil => simp [ordInsertDesc]
  | cons b l ih =>
    rw [ordInsertDesc_cons]
    by_cases h : b.priority ≤ x.priority
    · rw [if_pos h]; simp
    · rw [if_neg h]; simp [ih]; tauto

theorem sorted_ordInsertDesc {x : ReviewQueueItem} {l : List ReviewQueueItem}
    (hl : QueueSortedDesc l) : QueueSortedDesc (ordInsertDesc x l) := by
  induction l with
  | nil => simp [ordInsertDesc, QueueSortedDesc]
  | cons b l ih =>
    rcases queueSortedDesc_cons.mp hl with ⟨hb, hl2⟩
    rw [ordInsertDesc_cons]
    by_cases h : b.priority ≤ x.priority
    · rw [if_pos h]
      refine queueSortedDesc_cons.mpr ⟨?_, hl⟩
      intro z hz
      rcases List.mem_cons.mp hz with hz | hz
      · subst hz; exact h
      · exact le_trans (hb z hz) h
    · rw [if_neg h]
      refine queueSortedDesc_cons.mpr ⟨?_, ih hl2⟩
      intro z hz
      rcases mem_ordInsertDesc.mp hz with hz | hz
      · subst hz; exact le_of_not_le h
      · exact hb z hz

theorem sorted_sortByPriorityDesc (l : List ReviewQueueItem) :
    QueueSortedDesc (sortByPriorityDesc l) := by
  induction l with
  | nil => simp [sortByPriorityDesc, QueueSortedDesc]
  | cons x l ih => exact sorted_ordInsertDesc ih

theorem filter_ordInsertDesc (p : ℕ) (x : ReviewQueueItem) (l : List ReviewQueueItem)
    (hl : QueueSortedDesc l) :
    (ordInsertDesc x l).filter (fun i => i.priority = p) =
      (if x.priority = p then [x] else []) ++ l.filter (fun i => i.priority = p) := by
  induction l with
  | nil =>
    by_cases hx : x.priority = p <;> simp [ordInsertDesc, List.filter, hx]
  | cons b l ih =>
    rcases queueSortedDesc_cons.mp hl with ⟨hb, hl2⟩
    rw [ordInsertDesc_cons]
    by_cases h : b.priority ≤ x.priority
    · rw [if_pos h]
      simp only [List.filter_cons]
      by_cases hx : x.priority = p <;> by_cases hbp : b.priority = p <;>
        simp [hx, hbp]
    · rw [if_neg h]
      simp only [List.filter_cons, ih hl2]
      by_cases hbp : b.priority = p
      · have hx : ¬ x.priority = p := fun hx => h (le_of_eq (hbp.trans hx.symm))
        simp [hbp, hx]
      · by_cases hx : x.priority = p <;> simp [hbp, hx]

theorem filter_sortByPriorityDesc (p : ℕ) (l : List ReviewQueueItem) :
    (sortByPriorityDesc l).filter (fun i => i.priority = p) =
      l.filter (fun i => i.priority = p) := by
  induction l with
  | nil => simp [sortByPriorityDesc]
  | cons x l ih =>
    rw [show sortByPriorityDesc (x :: l) = ordInsertDesc x (sortByPriorityDesc l) from rfl,
      filter_ordInsertDesc p x _ (sorted_sortByPriorityDesc l), ih,
      List.filter_cons]
    by_cases hx : x.priority = p <;> simp [hx]

/-! ### Pipeline lemmas -/

/-- Characterisation of the pipeline loop under a fault-free transcriber:
every chunk is transcribed, buffered (in DEV mode), and delivered to every
registered agent, and no fault escapes. -/
theorem processChunks_okTr {A C : Type} (impl : AgentImpl A) (f : C → ℕ → TranscriptionResult)
    (sr : ℕ) :
    ∀ (cs : List C) (s : SessionStream A C), s.isActiveFlag = true →
      processChunks impl (okTr f) sr cs s = .ok
        { s with
          transcription_buffer := s.transcription_buffer ++
            (if s.operating_mode = OperatingMode.DEV_MODE then cs.map (fun c => f c sr) else []),
          agents := deliverAll impl (contextOf s) s.agents (cs.map (fun c => f c sr)) } := by
  intro cs
  induction cs with
  | nil =>
    intro s _
    simp [processChunks, deliverAll]
  | cons c cs ih =>
    intro s h
    have hstep : processChunks impl (okTr f) sr (c :: cs) s =
        if s.isActiveFlag = false then .ok s
        else
          processChunks impl (okTr f) sr cs
            (broadcastTranscription
              (if s.operating_mode = OperatingMode.DEV_MODE then
                { s with transcription_buffer := s.transcription_buffer ++ [f c sr] }
               else s) impl (f c sr)) := rfl
    rw [hstep, if_neg (by simp [h])]
    by_cases hm : s.operating_mode = OperatingMode.DEV_MODE
    · rw [if_pos hm]
      rw [ih _ (by simp [broadcastTranscription, h])]
      simp [broadcastTranscription, contextOf, deliverAll, deliver, hm, List.append_assoc]
    · rw [if_neg hm]
      rw [ih _ (by simp [broadcastTranscription, h])]
      simp [broadcastTranscription, contextOf, deliverAll, deliver, hm]

/-- Closed form of `start_session` on an idle stream with a fault-free
transcriber: the call returns only after the loop has consumed every chunk. -/
theorem startSession_okTr {A C : Type} (mode : OperatingMode) (agents : List A)
    (impl : AgentImpl A) (meta : SessionMetadata) (sr : ℕ) (cs : List C)
    (f : C → ℕ → TranscriptionResult) :
    startSession (initStream mode agents) impl meta { sample_rate := sr, chunks := cs }
        (okTr f) =
      .ok
        { operating_mode := mode
          agents := deliverAll impl
            (some { session_id := meta.session_id, patient_id := meta.patient_id,
                    clinician_id := meta.clinician_id })
            (agents.map (fun ag => impl.on_session_start ag meta.session_id meta))
            (cs.map (fun c => f c sr))
          isActiveFlag := true
          current_session := some meta
          audio_provider := some { sample_rate := sr, chunks := cs, streaming := true }
          transcriber := some (okTr f)
          transcription_buffer :=
            if mode = OperatingMode.DEV_MODE then cs.map (fun c => f c sr) else [] } := by
  have h1 : startSession (initStream mode agents) impl meta
      { sample_rate := sr, chunks := cs } (okTr f) =
      processChunks impl (okTr f) sr cs
        { operating_mode := mode
          agents := agents.map (fun ag => impl.on_session_start ag meta.session_id meta)
          isActiveFlag := true
          current_session := some meta
          audio_provider := some { sample_rate := sr, chunks := cs, streaming := true }
          transcriber := some (okTr f)
          transcription_buffer := [] } := rfl
  rw [h1, processChunks_okTr impl f sr cs _ rfl]
  simp [contextOf]

/-- `stop_session` on an active stream: the active flag falls, the session
references are dropped, and the buffer is kept in DEV mode and erased in
PROD mode. -/
theorem stopSession_fields {A C : Type} (impl : AgentImpl A) (s : SessionStream A C)
    (h : s.isActiveFlag = true) :
    (stopSession s impl).isActiveFlag = false ∧
    (stopSession s impl).current_session = none ∧
    (stopSession s impl).audio_provider = none ∧
    (stopSession s impl).transcriber = none ∧
    (stopSession s impl).transcription_buffer =
      (if s.operating_mode = OperatingMode.PROD_MODE then [] else s.transcription_buffer) := by
  rcases hp : s.audio_provider with _ | p <;> rcases hc : s.current_session with _ | m <;>
    rcases hm : s.operating_mode <;> simp [stopSession, h, hp, hc, hm]

/-- The pipeline loop never raises the session-state fault. -/
theorem isStateFault_processChunks {A C : Type} (impl : AgentImpl A) (tr : Transcriber C)
    (sr : ℕ) : ∀ (cs : List C) (s : SessionStream A C),
    isStateFault (processChunks impl tr sr cs s) = false := by
  intro cs
  induction cs with
  | nil => intro s; simp [processChunks, isStateFault]
  | cons c cs ih =>
    intro s
    by_cases hact : s.isActiveFlag = false
    · simp [processChunks, hact, isStateFault]
    · rcases htc : tr c sr with msg | t
      · simp [processChunks, hact, htc, isStateFault]
      · simp [processChunks, hact, htc, ih]

/-- `start_session` on an idle stream never raises the session-state
fault (any fault it surfaces comes from the loop). -/
theorem isStateFault_startSession_of_inactive {A C : Type} (impl : AgentImpl A)
    (s : SessionStream A C) (h : s.isActiveFlag = false) (meta : SessionMetadata)
    (p : AudioProvider C) (tr : Transcriber C) :
    isStateFault (startSession s impl meta p tr) = false := by
  unfold startSession
  rw [if_neg (by simp [h])]
  exact isStateFault_processChunks impl tr p.sample_rate p.chunks _

/-- Case analysis of `on_transcription_update` as a single conditional
(the flagging rules do not read the processed counter, so bumping it first
does not change them). -/
theorem auditorUpdate_cases (a : UncertaintyAuditor) (t : TranscriptionResult) :
    auditorUpdate a t =
      (if t.text = "" ∨ pyStrip t.text = ""
       then { a with total_transcriptions_processed := a.total_transcriptions_processed + 1 }
       else if (evalFlagRules a t).1
       then addToReviewQueue
              { a with total_transcriptions_processed := a.total_transcriptions_processed + 1 }
              t (evalFlagRules a t).2.1 (evalFlagRules a t).2.2
       else { a with total_transcriptions_processed := a.total_transcriptions_processed + 1 }) :=
  rfl

/-- What one fan-out sequence does to the test agents: the log of each recorder
is extended by every event, and the faulty agent stays as it was. -/
theorem deliverAll_testImpl_agents (ctx : Option AgentContext) :
    ∀ (ts : List TranscriptionResult) (ags : List TestAgent),
      deliverAll testImpl ctx ags ts = ags.map (fun ag =>
        match ag with
        | TestAgent.recorder n log => TestAgent.recorder n (log ++ ts)
        | TestAgent.faulty n => TestAgent.faulty n) := by
  intro ts
  induction ts with
  | nil =>
    intro ags
    have hid : (fun ag : TestAgent => match ag with
        | TestAgent.recorder n log => TestAgent.recorder n (log ++ [])
        | TestAgent.faulty n => TestAgent.faulty n) = id := by
      funext ag; cases ag <;> simp
    rw [hid, List.map_id]
    simp [deliverAll]
  | cons t ts ih =>
    intro ags
    rw [show deliverAll testImpl ctx ags (t :: ts) =
        deliverAll testImpl ctx (deliver testImpl ctx ags t) ts from rfl, ih, deliver,
      List.map_map]
    have hcomp : ∀ ag : TestAgent,
        ((fun ag => match ag with
          | TestAgent.recorder n log => TestAgent.recorder n (log ++ ts)
          | TestAgent.faulty n => TestAgent.faulty n) ∘ applyHandler testImpl t ctx) ag =
        (match ag with
          | TestAgent.recorder n log => TestAgent.recorder n (log ++ t :: ts)
          | TestAgent.faulty n => TestAgent.faulty n) := by
      intro ag; cases ag <;> simp [applyHandler, testImpl]
    rw [funext hcomp]

/-- The flagging rules as one conditional: the low-confidence criterion
takes precedence; the medical-term criterion applies only when it did not
fire. -/
theorem evalFlagRules_eq (a : UncertaintyAuditor) (t : TranscriptionResult) :
    evalFlagRules a t =
      if t.confidence_score < a.confidence_threshold then
        (true, "Low confidence score: " ++ formatPercent2 t.confidence_score,
          if t.confidence_score < mkRat 1 2 then 5
          else if t.confidence_score < mkRat 3 5 then 3
          else 2)
      else if a.auto_flag_medical_terms &&
          !(a.medical_terms.filter (fun term => strContains (pyLower t.text) term)).isEmpty then
        (true, "Contains medical terms: " ++
          joinSep ", " (a.medical_terms.filter (fun term => strContains (pyLower t.text) term)),
          4)
      else (false, "", 1) := by
  unfold evalFlagRules
  by_cases hc : t.confidence_score < a.confidence_threshold
  · simp [hc]
  · by_cases hm : a.auto_flag_medical_terms
    · by_cases hf :
        (a.medical_terms.filter (fun term => strContains (pyLower t.text) term)).isEmpty
      · simp [hc, hm, hf]
      · simp [hc, hm, hf]
    · simp [hc, hm]

/-- A transcriber fault inside the loop propagates: the loop stops at the
faulting chunk (having fully processed the preceding ones) and the fault
escapes with the state at the point of the raise. -/
theorem processChunks_fault {A C : Type} (impl : AgentImpl A) (tr : Transcriber C)
    (sr : ℕ) (f : C → ℕ → TranscriptionResult) (msg : String) (c : C) (cs2 : List C)
    (herr : tr c sr = .error msg) :
    ∀ (cs1 : List C), (∀ x ∈ cs1, tr x sr = .ok (f x sr)) →
    ∀ (s : SessionStream A C), s.isActiveFlag = true →
      processChunks impl tr sr (cs1 ++ c :: cs2) s =
        .error (.transcriptionFault msg,
          { s with
            transcription_buffer := s.transcription_buffer ++
              (if s.operating_mode = OperatingMode.DEV_MODE
               then cs1.map (fun x => f x sr) else []),
            agents := deliverAll impl (contextOf s) s.agents (cs1.map (fun x => f x sr)) }) := by
  intro cs1
  induction cs1 with
  | nil =>
    intro _ s h
    simp [processChunks, h, herr, deliverAll]
    rw [← h]
  | cons x cs1 ih =>
    intro hok s h
    have hx : tr x sr = .ok (f x sr) := hok x (List.mem_cons_self x cs1)
    have hok2 : ∀ y ∈ cs1, tr y sr = .ok (f y sr) := fun y hy =>
      hok y (List.mem_cons_of_mem x hy)
    rw [List.cons_append]
    by_cases hm : s.operating_mode = OperatingMode.DEV_MODE
    · simp only [processChunks, h, hx]
      rw [if_neg (by simp [h]), if_pos hm]
      rw [ih hok2 _ (by simp [broadcastTranscription, h])]
      simp [broadcastTranscription, contextOf, deliverAll, deliver, hm, List.append_assoc]
    · simp only [processChunks, h, hx]
      rw [if_neg (by simp [h]), if_neg hm]
      rw [ih hok2 _ (by simp [broadcastTranscription, h])]
      simp [broadcastTranscription, contextOf, deliverAll, deliver, hm]
      rw [h]

/-- One `on_transcription_update` keeps the queue sorted descending, and
each priority class of the new queue is the old class, possibly extended at
its end (the new item goes after the earlier equal-priority items). -/
theorem auditorUpdate_sorted_stable (a : UncertaintyAuditor) (t : TranscriptionResult)
    (h : QueueSortedDesc a.review_queue) :
    QueueSortedDesc (auditorUpdate a t).review_queue ∧
    ∀ p, ∃ tail, (auditorUpdate a t).review_queue.filter (fun i => i.priority = p) =
      a.review_queue.filter (fun i => i.priority = p) ++ tail := by
  rw [auditorUpdate_cases]
  split_ifs with hb hf
  · exact ⟨h, fun p => ⟨[], by simp⟩⟩
  · constructor
    · simpa [addToReviewQueue] using
        sorted_sortByPriorityDesc (a.review_queue ++
          [{ item_id := toString a.uuid_seed, transcription := t,
             reason := (evalFlagRules a t).2.1, priority := (evalFlagRules a t).2.2 }])
    · intro p
      refine ⟨List.filter (fun i => i.priority = p)
        [{ item_id := toString a.uuid_seed, transcription := t,
           reason := (evalFlagRules a t).2.1, priority := (evalFlagRules a t).2.2 }], ?_⟩
      simp only [addToReviewQueue]
      rw [filter_sortByPriorityDesc, List.filter_append]
  · exact ⟨h, fun p => ⟨[], by simp⟩⟩

/-- A whole event sequence keeps the queue sorted descending and only ever
extends each priority class at its end. -/
theorem auditorRun_sorted_stable :
    ∀ (ts : List TranscriptionResult) (a : UncertaintyAuditor),
      QueueSortedDesc a.review_queue →
      QueueSortedDesc (auditorRun a ts).review_queue ∧
      ∀ p, ∃ tail, (auditorRun a ts).review_queue.filter (fun i => i.priority = p) =
        a.review_queue.filter (fun i => i.priority = p) ++ tail := by
  intro ts
  induction ts with
  | nil => exact fun a h => ⟨h, fun p => ⟨[], by simp [auditorRun]⟩⟩
  | cons t ts ih =>
    intro a h
    have hstep := auditorUpdate_sorted_stable a t h
    have hrest := ih (auditorUpdate a t) hstep.1
    have hrun : auditorRun a (t :: ts) = auditorRun (auditorUpdate a t) ts := rfl
    refine ⟨by rw [hrun]; exact hrest.1, fun p => ?_⟩
    rcases hstep.2 p with ⟨tl1, h1⟩
    rcases hrest.2 p with ⟨tl2, h2⟩
    exact ⟨tl1 ++ tl2, by rw [hrun, h2, h1, List.append_assoc]⟩

/-! ## Claim theorems -/

/-- Claim C1: a fault raised inside the `on_transcription_update` handler of one agent
during fan-out is captured and never propagates to the
orchestrator, never prevents the sibling agents from handling the same
event, and never aborts the session.  First conjunct: for every agent set
and every event, the outcome of each agent after the fan-out is exactly the
outcome of its own handler — a fault in a sibling cannot affect it, and
`_broadcast_transcription` (the gather with `return_exceptions=True`)
returns normally by construction.  Second conjunct: with three registered
agents of which the middle one always faults, a whole session over any
chunk sequence completes normally and the two recorder agents receive
every event. -/
theorem c1_agent_fault_isolation :
    (∀ (A C : Type) (impl : AgentImpl A) (s : SessionStream A C)
        (t : TranscriptionResult) (i : ℕ),
        ((broadcastTranscription s impl t).agents)[i]? =
          (s.agents[i]?).map (applyHandler impl t (contextOf s))) ∧
    (∀ (mode : OperatingMode) (meta : SessionMetadata) (sr : ℕ) (cs : List ℕ)
        (f : ℕ → ℕ → TranscriptionResult) (na nf nb : String),
        ∃ sEnd : SessionStream TestAgent ℕ,
          startSession (initStream mode
              [TestAgent.recorder na [], TestAgent.faulty nf, TestAgent.recorder nb []])
            testImpl meta { sample_rate := sr, chunks := cs } (okTr f) = .ok sEnd ∧
          sEnd.agents =
            [TestAgent.recorder na (cs.map (fun c => f c sr)), TestAgent.faulty nf,
             TestAgent.recorder nb (cs.map (fun c => f c sr))]) := by
  constructor
  · intro A C impl s t i
    simp [broadcastTranscription, List.getElem?_map]
  · intro mode meta sr cs f na nf nb
    refine ⟨_, startSession_okTr mode _ testImpl meta sr cs f, ?_⟩
    rw [deliverAll_testImpl_agents]
    simp [testImpl]

/-- Claim C2: `start_session` while a session is already active raises the
session-state fault (`RuntimeError`) and leaves the stream state — session
metadata, audio provider, transcriber, transcription buffer, active flag —
exactly as it was: the error carries the unchanged input state. -/
theorem c2_start_while_active (A C : Type) (impl : AgentImpl A) (s : SessionStream A C)
    (meta : SessionMetadata) (p : AudioProvider C) (tr : Transcriber C)
    (h : s.isActiveFlag = true) :
    startSession s impl meta p tr = .error (.sessionAlreadyActive, s) := by
  unfold startSession
  rw [if_pos h]

/-- Witness for C2 at a concrete active stream. -/
theorem c2_witness :
    sActive.isActiveFlag = true ∧
    startSession sActive testImpl meta0 provider2 (okTr ev) =
      .error (.sessionAlreadyActive, sActive) :=
  ⟨rfl, c2_start_while_active TestAgent ℕ testImpl sActive meta0 provider2 (okTr ev) rfl⟩

/-- Counterexample to claim C3: the buffering code path is NOT
mode-independent — in PROD (ephemeral) mode the buffer does not accumulate
the events of the session.  Concretely: after one chunk has been transcribed
and delivered to the registered agent (the log of the recorder holds the
event), the session buffer is empty rather than `[ev 1 16000]` as
mode-independent accumulation would require. -/
theorem c3_counterexample :
    probeOk (startSession (initStream OperatingMode.PROD_MODE
        [TestAgent.recorder "agent_a" []]) testImpl meta0
        { sample_rate := 16000, chunks := [1] } (okTr ev)) =
      some ([], [TestAgent.recorder "agent_a" [ev 1 16000]], true) ∧
    ([] : List TranscriptionResult) ≠ [ev 1 16000] :=
  ⟨by decide, by decide⟩

/-- Claim C3 as amended: the buffer accumulates events only in persist
(DEV) mode — the buffering step is inside an `if DEV_MODE` guard, so in
ephemeral (PROD) mode the buffer stays empty throughout the session — and
after `stop_session` the buffer holds every event of the completed session
in DEV mode and is empty in PROD mode. -/
theorem c3_amended_retention (mode : OperatingMode) (meta : SessionMetadata) (sr : ℕ)
    (cs : List ℕ) (f : ℕ → ℕ → TranscriptionResult) (na : String) :
    ∃ sEnd : SessionStream TestAgent ℕ,
      startSession (initStream mode [TestAgent.recorder na []]) testImpl meta
          { sample_rate := sr, chunks := cs } (okTr f) = .ok sEnd ∧
      sEnd.transcription_buffer =
        (if mode = OperatingMode.DEV_MODE then cs.map (fun c => f c sr) else []) ∧
      (stopSession sEnd testImpl).transcription_buffer =
        (if mode = OperatingMode.DEV_MODE then cs.map (fun c => f c sr) else []) := by
  rcases mode with _ | _
  · refine ⟨_, startSession_okTr OperatingMode.DEV_MODE [TestAgent.recorder na []]
      testImpl meta sr cs f, by simp, ?_⟩
    simp [stopSession]
  · refine ⟨_, startSession_okTr OperatingMode.PROD_MODE [TestAgent.recorder na []]
      testImpl meta sr cs f, by simp, ?_⟩
    simp [stopSession]

/-- Claim C4: for every event, the low-confidence rule fires exactly when
`confidence < threshold` (strict: at `confidence = threshold` it does not
fire, and any flag then raised is the independent medical-term rule, with
priority 4), and when it fires the assigned priority follows the tiers
`[0,0.50) → 5`, `[0.50,0.60) → 3`, `[0.60,threshold) → 2`; the assigned
reason and priority are the ones placed in the created review-queue item. -/
theorem c4_low_confidence_rule (a : UncertaintyAuditor) (t : TranscriptionResult) :
    (t.confidence_score < a.confidence_threshold →
      (evalFlagRules a t).1 = true ∧
      (evalFlagRules a t).2.1 = "Low confidence score: " ++ formatPercent2 t.confidence_score ∧
      (t.confidence_score < mkRat 1 2 → (evalFlagRules a t).2.2 = 5) ∧
      (mkRat 1 2 ≤ t.confidence_score → t.confidence_score < mkRat 3 5 →
        (evalFlagRules a t).2.2 = 3) ∧
      (mkRat 3 5 ≤ t.confidence_score → (evalFlagRules a t).2.2 = 2)) ∧
    (a.confidence_threshold ≤ t.confidence_score →
      ((evalFlagRules a t).1 = true →
        (evalFlagRules a t).2.2 = 4 ∧ a.auto_flag_medical_terms = true) ∧
      (a.auto_flag_medical_terms = true →
        a.medical_terms.filter (fun term => strContains (pyLower t.text) term) ≠ [] →
        (evalFlagRules a t).1 = true ∧ (evalFlagRules a t).2.2 = 4)) ∧
    (¬(t.text = "" ∨ pyStrip t.text = "") → (evalFlagRules a t).1 = true →
      (auditorUpdate a t).review_queue =
        sortByPriorityDesc (a.review_queue ++
          [{ item_id := toString a.uuid_seed, transcription := t,
             reason := (evalFlagRules a t).2.1, priority := (evalFlagRules a t).2.2 }]) ∧
      (auditorUpdate a t).total_flagged = a.total_flagged + 1) := by
  refine ⟨?_, ?_, ?_⟩
  · intro hc
    rw [evalFlagRules_eq, if_pos hc]
    refine ⟨rfl, rfl, ?_, ?_, ?_⟩
    · intro h5
      simp only []
      rw [if_pos h5]
    · intro hge hlt
      simp only []
      rw [if_neg (not_lt.mpr hge), if_pos hlt]
    · intro hge
      simp only []
      rw [if_neg (not_lt.mpr (le_trans (by decide : (mkRat 1 2 : ℚ) ≤ mkRat 3 5) hge)),
        if_neg (not_lt.mpr hge)]
  · intro hge
    have hc : ¬ t.confidence_score < a.confidence_threshold := not_lt.mpr hge
    rw [evalFlagRules_eq, if_neg hc]
    constructor
    · intro hflag
      by_cases hcond : a.auto_flag_medical_terms &&
          !(a.medical_terms.filter (fun term => strContains (pyLower t.text) term)).isEmpty
      · rw [if_pos hcond]
        refine ⟨rfl, ?_⟩
        have h2 := hcond
        simp only [Bool.and_eq_true] at h2
        exact h2.1
      · rw [if_neg hcond] at hflag
        exact absurd hflag (by simp)
    · intro hauto hfind
      have hne : (a.medical_terms.filter
          (fun term => strContains (pyLower t.text) term)).isEmpty = false := by
        simpa [List.isEmpty_iff] using hfind
      rw [if_pos (by simp [hauto, hne])]
      exact ⟨rfl, rfl⟩
  · intro hblank hflag
    rw [auditorUpdate_cases, if_neg hblank, if_pos hflag]
    constructor
    · simp [addToReviewQueue]
    · simp [addToReviewQueue]

/-- Witness for C4: at confidence 0.45 (below threshold 0.70 and below
0.50) the low-confidence rule fires with priority 5; at confidence exactly
0.70 with a medical term present, the flag raised is the medical rule with
priority 4. -/
theorem c4_witness :
    ((evalFlagRules auditor070 tOkay).1 = true ∧ (evalFlagRules auditor070 tOkay).2.2 = 5) ∧
    ((evalFlagRules auditor070 tMed).1 = true ∧ (evalFlagRules auditor070 tMed).2.2 = 4) := by
  constructor
  · have h := (c4_low_confidence_rule auditor070 tOkay).1 (by decide)
    exact ⟨h.1, h.2.2.1 (by decide)⟩
  · have h := ((c4_low_confidence_rule auditor070 tMed).2.1 (by decide)).2 (by decide) (by decide)
    exact ⟨h.1, h.2⟩

/-- Counterexample to claim C5: the transcriber call in the pipeline loop
is not guarded — with a transcriber that faults on chunk 2 of 3, the run
raises (there is no success state at all) instead of skipping the chunk
and continuing: only chunk 1 was processed and chunk 3 never reached the
agents or the buffer. -/
theorem c5_counterexample :
    probeErr (startSession (initStream OperatingMode.DEV_MODE
        [TestAgent.recorder "agent_a" []]) testImpl meta0 provider3 trFaultOn2) =
      some (.transcriptionFault "transcription failed", [ev 1 16000],
        [TestAgent.recorder "agent_a" [ev 1 16000]]) ∧
    probeOk (startSession (initStream OperatingMode.DEV_MODE
        [TestAgent.recorder "agent_a" []]) testImpl meta0 provider3 trFaultOn2) = none :=
  ⟨by decide, by decide⟩

/-- Claim C5 as amended: a transcriber fault on a chunk is NOT recoverable:
it propagates out of the pipeline loop, aborting processing at the
faulting chunk — the preceding chunks are fully processed, the faulting
chunk and every later chunk are not, and the fault escapes to the caller
with the state at the point of the raise. -/
theorem c5_amended_fault_aborts_loop {A C : Type} (impl : AgentImpl A) (tr : Transcriber C)
    (sr : ℕ) (f : C → ℕ → TranscriptionResult) (msg : String) (c : C) (cs1 cs2 : List C)
    (s : SessionStream A C) (herr : tr c sr = .error msg)
    (hok : ∀ x ∈ cs1, tr x sr = .ok (f x sr)) (h : s.isActiveFlag = true) :
    processChunks impl tr sr (cs1 ++ c :: cs2) s =
      .error (.transcriptionFault msg,
        { s with
          transcription_buffer := s.transcription_buffer ++
            (if s.operating_mode = OperatingMode.DEV_MODE
             then cs1.map (fun x => f x sr) else []),
          agents := deliverAll impl (contextOf s) s.agents (cs1.map (fun x => f x sr)) }) :=
  processChunks_fault impl tr sr f msg c cs2 herr cs1 hok s h

/-- Witness for the amended C5 at a concrete mid-session state. -/
theorem c5_amended_witness :
    trFaultOn2 2 16000 = .error "transcription failed" ∧
    processChunks testImpl trFaultOn2 16000 ([1] ++ 2 :: [3]) sMid =
      .error (.transcriptionFault "transcription failed",
        { sMid with
          transcription_buffer := sMid.transcription_buffer ++
            (if sMid.operating_mode = OperatingMode.DEV_MODE
             then [1].map (fun x => ev x 16000) else []),
          agents := deliverAll testImpl (contextOf sMid) sMid.agents
            ([1].map (fun x => ev x 16000)) }) :=
  ⟨rfl, c5_amended_fault_aborts_loop testImpl trFaultOn2 16000 ev "transcription failed"
    2 [1] [3] sMid rfl (by intro x hx; simp at hx; subst hx; rfl) rfl⟩

/-- Claim C6: immediately after every insertion the review queue is sorted
by priority descending, and the re-sort is stable on ties: each priority
class of the queue is only ever extended at its end, so equal-priority
items keep their insertion order; this holds for a single
`on_transcription_update` and for every sequence of them. -/
theorem c6_queue_sorted_and_stable (a : UncertaintyAuditor)
    (h : QueueSortedDesc a.review_queue) :
    (∀ t, QueueSortedDesc (auditorUpdate a t).review_queue ∧
      ∀ p, ∃ tail, (auditorUpdate a t).review_queue.filter (fun i => i.priority = p) =
        a.review_queue.filter (fun i => i.priority = p) ++ tail) ∧
    (∀ ts, QueueSortedDesc (auditorRun a ts).review_queue ∧
      ∀ p, ∃ tail, (auditorRun a ts).review_queue.filter (fun i => i.priority = p) =
        a.review_queue.filter (fun i => i.priority = p) ++ tail) :=
  ⟨fun t => auditorUpdate_sorted_stable a t h, fun ts => auditorRun_sorted_stable ts a h⟩

/-- Witness for C6 on a fresh auditor over a three-event run. -/
theorem c6_witness :
    QueueSortedDesc (auditorRun auditor070 [tOkay, tMed, tBlank]).review_queue :=
  ((c6_queue_sorted_and_stable auditor070 List.Pairwise.nil).2 [tOkay, tMed, tBlank]).1

/-- Counterexample to claim C7: on a fresh auditor with threshold 0.70 the
event of Scenario 1 at confidence 0.45 produces exactly one queue item
with priority 5, but its reason is `Low confidence score: 45.00%` — the
`:.2%` format renders the confidence as a percentage, so the reason does
NOT cite the numeric confidence `0.45`. -/
theorem c7_counterexample :
    (mkUncertaintyAuditor (mkRat 7 10)).toOption = some auditor070 ∧
    (auditorUpdate auditor070 tOkay).review_queue.map (fun i => (i.priority, i.reason)) =
      [(5, "Low confidence score: 45.00%")] ∧
    (auditorUpdate auditor070 tOkay).review_queue.map
      (fun i => strContains i.reason "0.45") = [false] :=
  ⟨by decide, by decide, by decide⟩

/-- Claim C7 as amended: with threshold 0.70, the Scenario 1 event
at confidence 0.45 on a fresh auditor produces exactly one review-queue
item, with priority 5, whose reason cites the confidence as the
percentage `45.00%`. -/
theorem c7_amended_scenario1 :
    (mkUncertaintyAuditor (mkRat 7 10)).toOption = some auditor070 ∧
    (auditorUpdate auditor070 tOkay).review_queue.map (fun i => (i.priority, i.reason)) =
      [(5, "Low confidence score: 45.00%")] ∧
    (auditorUpdate auditor070 tOkay).total_flagged = 1 ∧
    (auditorUpdate auditor070 tOkay).review_queue.map
      (fun i => strContains i.reason "45.00%") = [true] :=
  ⟨by decide, by decide, by decide, by decide⟩

/-- Claim C8: for every event whose text is empty or whitespace-only,
`on_transcription_update` increments the processed counter and does
nothing else — the flagged counter and the review queue are unchanged,
whatever the confidence score. -/
theorem c8_blank_event_only_increments (a : UncertaintyAuditor) (t : TranscriptionResult)
    (h : t.text = "" ∨ pyStrip t.text = "") :
    (auditorUpdate a t).total_transcriptions_processed =
      a.total_transcriptions_processed + 1 ∧
    (auditorUpdate a t).total_flagged = a.total_flagged ∧
    (auditorUpdate a t).review_queue = a.review_queue := by
  rw [auditorUpdate_cases, if_pos h]
  exact ⟨rfl, rfl, rfl⟩

/-- Witness for C8 at the empty-text event of Scenario 3. -/
theorem c8_witness :
    (auditorUpdate auditor070 tBlank).total_transcriptions_processed =
      auditor070.total_transcriptions_processed + 1 ∧
    (auditorUpdate auditor070 tBlank).total_flagged = auditor070.total_flagged ∧
    (auditorUpdate auditor070 tBlank).review_queue = auditor070.review_queue :=
  c8_blank_event_only_increments auditor070 tBlank (Or.inl rfl)

/-- Counterexample to claim C9: `start_session` awaits the whole pipeline
loop, so the caller does not resume while the loop is still processing.
Concretely, on a two-chunk source the success state at the moment the
caller resumes already holds both events in the buffer and both events in
the log of the agent — zero chunks remain, while the claim requires the loop to
be still processing at that moment.  (The session is indeed still Active
then, which is the part of the claim that does hold.) -/
theorem c9_counterexample :
    probeOk (startSession (initStream OperatingMode.DEV_MODE
        [TestAgent.recorder "agent_a" []]) testImpl meta0 provider2 (okTr ev)) =
      some ([ev 1 16000, ev 2 16000],
        [TestAgent.recorder "agent_a" [ev 1 16000, ev 2 16000]], true) ∧
    provider2.chunks.length = 2 :=
  ⟨by decide, by decide⟩

/-- Claim C9 as amended: `start_session` suspends the caller until the
pipeline loop completes, not merely until it begins — `await
self._process_audio_stream()` runs the loop inline, so on a successful
return every chunk of the source has been transcribed, buffered (in DEV
mode) and delivered to the agents; the active flag is still raised when
the caller resumes. -/
theorem c9_amended_caller_waits_for_loop (mode : OperatingMode) (meta : SessionMetadata)
    (sr : ℕ) (cs : List ℕ) (f : ℕ → ℕ → TranscriptionResult) (na : String) :
    ∃ sEnd : SessionStream TestAgent ℕ,
      startSession (initStream mode [TestAgent.recorder na []]) testImpl meta
          { sample_rate := sr, chunks := cs } (okTr f) = .ok sEnd ∧
      sEnd.isActiveFlag = true ∧
      sEnd.agents = [TestAgent.recorder na (cs.map (fun c => f c sr))] ∧
      sEnd.transcription_buffer =
        (if mode = OperatingMode.DEV_MODE then cs.map (fun c => f c sr) else []) := by
  refine ⟨_, startSession_okTr mode [TestAgent.recorder na []] testImpl meta sr cs f,
    rfl, ?_, rfl⟩
  rw [deliverAll_testImpl_agents]
  simp [testImpl]

/-- Claim C10: after `stop_session` on any active stream — in either mode —
the orchestrator is fully back to Idle: the active flag is down and the
session metadata, audio provider and transcriber references are cleared,
and an immediately following `start_session` never raises the
session-state fault (the start–stop–start round trip works). -/
theorem c10_stop_then_start_round_trip (A C : Type) (impl : AgentImpl A)
    (s : SessionStream A C) (meta : SessionMetadata) (p : AudioProvider C)
    (tr : Transcriber C) (h : s.isActiveFlag = true) :
    (stopSession s impl).isActiveFlag = false ∧
    (stopSession s impl).current_session = none ∧
    (stopSession s impl).audio_provider = none ∧
    (stopSession s impl).transcriber = none ∧
    isStateFault (startSession (stopSession s impl) impl meta p tr) = false := by
  have hf := stopSession_fields impl s h
  exact ⟨hf.1, hf.2.1, hf.2.2.1, hf.2.2.2.1,
    isStateFault_startSession_of_inactive impl _ hf.1 meta p tr⟩

/-- Witness for C10 at a concrete active stream. -/
theorem c10_witness :
    (stopSession sActive testImpl).isActiveFlag = false ∧
    (stopSession sActive testImpl).current_session = none ∧
    (stopSession sActive testImpl).audio_provider = none ∧
    (stopSession sActive testImpl).transcriber = none ∧
    isStateFault (startSession (stopSession sActive testImpl) testImpl meta0 provider2
      (okTr ev)) = false :=
  c10_stop_then_start_round_trip TestAgent ℕ testImpl sActive meta0 provider2 (okTr ev) rfl
